import Mathlib

/-
  Verification of the completion-client core of the obsidian-ginie plugin.

  The program under study is `OpenAIAPI` in `src/main.ts` (and its
  near-duplicate in the second plugin variant): a client holding
  (apiKey, model, initialPrompt), whose `query(context, question)` builds a
  chat-completion request, POSTs it, and either extracts
  `data.choices[0].message.content` from a success response or throws an
  error derived from a failure response.

  The embedding models JavaScript dynamic values (`Js`), member access with
  its TypeError behaviour on undefined/null, `JSON.stringify`, the string
  coercion performed by the `Error` constructor, and the `query` method as a
  pure function of the client, a deterministic transport, and the two input
  strings. The transport stands for `fetch`: it maps the issued HTTP request
  to an HTTP response whose body either parses as JSON (`some` value, as
  `response.json()` returns) or does not (`none`, as `response.json()`
  rejecting with a SyntaxError).
-/

/-- A JavaScript runtime value, as far as the client manipulates them:
`undefined`, `null`, booleans, numbers (the program only ever interpolates
integer HTTP status codes, so integers suffice), strings, arrays and
objects (assoc lists of fields). -/
inductive Js where
  | undefined
  | null
  | bool (b : Bool)
  | num (n : Int)
  | str (s : String)
  | arr (elems : List Js)
  | obj (fields : List (String × Js))
deriving Inhabited

/-- Field lookup in an object literal. Objects produced by `JSON.parse` and
the object literals in the source have pairwise distinct keys, so
first-match lookup agrees with JavaScript property lookup on every object
the program builds or receives. -/
def lookupField : List (String × Js) → String → Option Js
  | [], _ => none
  | (k, v) :: rest, key => if key = k then some v else lookupField rest key

/-- The message of the TypeError thrown by reading a property of `undefined`. -/
def undefReadMsg (k : String) : String :=
  "TypeError: Cannot read properties of undefined (reading " ++ k ++ ")"

/-- The message of the TypeError thrown by reading a property of `null`. -/
def nullReadMsg (k : String) : String :=
  "TypeError: Cannot read properties of null (reading " ++ k ++ ")"

/-- JavaScript member access `v.k`: throws a TypeError on `undefined` and
`null`; yields the field or `undefined` on objects; yields `undefined` on
the primitives (none of the built-in properties of primitives are named by
the program, so they are not modelled). -/
def Js.getProp : Js → String → Except String Js
  | .undefined, k => .error (undefReadMsg k)
  | .null, k => .error (nullReadMsg k)
  | .obj fields, k => .ok ((lookupField fields k).getD .undefined)
  | _, _ => .ok .undefined

/-- JavaScript index access `v[i]`: throws a TypeError on `undefined` and
`null`; yields the element or `undefined` on arrays; yields the one-character
string or `undefined` on strings; yields `undefined` on the remaining
primitives. -/
def Js.getIndex : Js → Nat → Except String Js
  | .undefined, i => .error (undefReadMsg (toString i))
  | .null, i => .error (nullReadMsg (toString i))
  | .arr xs, i => .ok ((xs.get? i).getD .undefined)
  | .str s, i => .ok (((s.toList.get? i).map fun c => Js.str (String.mk [c])).getD .undefined)
  | _, _ => .ok .undefined

mutual

/-- `String(v)`, the coercion applied by the `Error` constructor to a
non-undefined message argument. -/
def jsToString : Js → String
  | .undefined => "undefined"
  | .null => "null"
  | .bool true => "true"
  | .bool false => "false"
  | .num n => toString n
  | .str s => s
  | .arr xs => String.intercalate "," (jsToStringElems xs)
  | .obj _ => "[object Object]"

/-- Elements of `Array.prototype.toString`: `undefined` and `null` render
as empty strings, the rest via `String(v)`. -/
def jsToStringElems : List Js → List String
  | [] => []
  | .undefined :: xs => "" :: jsToStringElems xs
  | .null :: xs => "" :: jsToStringElems xs
  | x :: xs => jsToString x :: jsToStringElems xs

end

/-- The message carried by `new Error(v)`: an `undefined` argument leaves
the message empty, anything else is coerced with `String(v)`. -/
def errorMessageOf : Js → String
  | .undefined => ""
  | v => jsToString v

/-- JSON string escaping for the characters the serializer must escape and
that can occur in the program's strings (quote, backslash, newline, tab,
carriage return). -/
def escapeJsonChar (c : Char) : String :=
  if c = '\"' then "\\\""
  else if c = '\\' then "\\\\"
  else if c = '\n' then "\\n"
  else if c = '\t' then "\\t"
  else if c = '\r' then "\\r"
  else String.mk [c]

/-- A JSON string literal: quoted and escaped. -/
def quoteJson (s : String) : String :=
  "\"" ++ String.join (s.toList.map escapeJsonChar) ++ "\""

mutual

/-- `JSON.stringify` on the values the program serializes (the request body
is always an object, so the top-level `undefined` corner of the real
function is irrelevant). -/
def Js.stringify : Js → String
  | .undefined => "undefined"
  | .null => "null"
  | .bool true => "true"
  | .bool false => "false"
  | .num n => toString n
  | .str s => quoteJson s
  | .arr xs => "[" ++ String.intercalate "," (stringifyElems xs) ++ "]"
  | .obj fs => "\x7b" ++ String.intercalate "," (stringifyFields fs) ++ "\x7d"

/-- Array elements under `JSON.stringify`: `undefined` renders as `null`. -/
def stringifyElems : List Js → List String
  | [] => []
  | .undefined :: xs => "null" :: stringifyElems xs
  | x :: xs => Js.stringify x :: stringifyElems xs

/-- Object fields under `JSON.stringify`: fields holding `undefined` are
omitted. -/
def stringifyFields : List (String × Js) → List String
  | [] => []
  | (_, .undefined) :: fs => stringifyFields fs
  | (k, v) :: fs => (quoteJson k ++ ":" ++ Js.stringify v) :: stringifyFields fs

end

/-- The outbound HTTP request `fetch` is called with: URL, method, header
list, and the already-serialized body string. -/
structure HttpRequest where
  url : String
  method : String
  headers : List (String × String)
  body : String

/-- The HTTP response the transport hands back. `jsonBody` is the result of
`response.json()` on the body text: `some v` when the body parses as JSON,
`none` when parsing throws (the branch the source catches). -/
structure HttpResponse where
  status : Nat
  jsonBody : Option Js

/-- `response.ok` of the Fetch API: status in the inclusive range 200-299. -/
def HttpResponse.ok (r : HttpResponse) : Bool :=
  200 ≤ r.status && r.status ≤ 299

/-- The client state: the three private fields set by the `OpenAIAPI`
constructor from the plugin settings. -/
structure OpenAIAPI where
  apiKey : String
  model : String
  initialPrompt : String

/-- The outcome of one `query` call, as seen by the caller awaiting the
returned promise: a resolved value, a rejection with `new Error(msg)`
thrown by the source, a rejection with a TypeError raised by a property
access on undefined or null, or a rejection with the SyntaxError of
`response.json()` on an unparseable success body. -/
inductive JsOutcome where
  | ret (v : Js)
  | thrown (msg : String)
  | typeFault (msg : String)
  | parseFault (msg : String)

/-- `true` when the promise was rejected (any thrown exception), `false`
when it resolved. -/
def JsOutcome.isFailure : JsOutcome → Bool
  | .ret _ => false
  | _ => true

/-- The JSON body the source builds inline at the `fetch` call:
model plus the three-message array (system initialPrompt, system
"context: " + context, user question). The template literal
interpolation of `context` is string concatenation. -/
def buildRequestBody (api : OpenAIAPI) (context question : String) : Js :=
  Js.obj [
    ("model", Js.str api.model),
    ("messages", Js.arr [
      Js.obj [("role", Js.str "system"), ("content", Js.str api.initialPrompt)],
      Js.obj [("role", Js.str "system"), ("content", Js.str ("context: " ++ context))],
      Js.obj [("role", Js.str "user"), ("content", Js.str question)]])]

/-- The argument of the single `fetch` call in `query`: the fixed endpoint,
POST, the two headers (the Authorization template literal is string
concatenation of "Bearer " and the key), and the stringified body. -/
def buildHttpRequest (api : OpenAIAPI) (context question : String) : HttpRequest :=
  { url := "https://api.openai.com/v1/chat/completions",
    method := "POST",
    headers := [
      ("Content-Type", "application/json"),
      ("Authorization", "Bearer " ++ api.apiKey)],
    body := Js.stringify (buildRequestBody api context question) }

/-- The access chain `errorData.error.message` of the failure branch,
propagating the first TypeError. -/
def extractProviderMessage (errorData : Js) : Except String Js :=
  match errorData.getProp "error" with
  | .error m => .error m
  | .ok e =>
    match e.getProp "message" with
    | .error m => .error m
    | .ok v => .ok v

/-- The access chain `data.choices[0].message.content` of the success
branch, propagating the first TypeError. -/
def extractAnswer (data : Js) : Except String Js :=
  match data.getProp "choices" with
  | .error m => .error m
  | .ok choices =>
    match choices.getIndex 0 with
    | .error m => .error m
    | .ok c0 =>
      match c0.getProp "message" with
      | .error m => .error m
      | .ok msg0 =>
        match msg0.getProp "content" with
        | .error m => .error m
        | .ok content => .ok content

/-- What `query` does with the awaited response. `!response.ok`: if the
body fails to parse, the catch block throws
`new Error("HTTP error! status: " + status)` (number interpolation is
decimal); otherwise `new Error(errorData.error.message)` is thrown, unless
the access chain itself raises a TypeError (the chain sits outside the
try). On a success status the body is parsed (a SyntaxError here is
uncaught) and `data.choices[0].message.content` is returned, any TypeError
of the chain propagating as a rejection. -/
def handleResponse (response : HttpResponse) : JsOutcome :=
  if response.ok then
    match response.jsonBody with
    | none => .parseFault "SyntaxError: Unexpected token in JSON"
    | some data =>
      match extractAnswer data with
      | .error m => .typeFault m
      | .ok content => .ret content
  else
    match response.jsonBody with
    | none => .thrown ("HTTP error! status: " ++ toString response.status)
    | some errorData =>
      match extractProviderMessage errorData with
      | .error m => .typeFault m
      | .ok v => .thrown (errorMessageOf v)

/-- `OpenAIAPI.query` against a deterministic transport standing for
`fetch`. The first component is the trace of issued requests: the method
body contains exactly one `fetch` call, executed unconditionally, so the
trace is the one built request. -/
def OpenAIAPI.query (api : OpenAIAPI) (transport : HttpRequest → HttpResponse)
    (context question : String) : List HttpRequest × JsOutcome :=
  let req := buildHttpRequest api context question
  ([req], handleResponse (transport req))

/-- `query` together with the client state after the call. The method body
contains no assignment to any `this` field (the three fields are only
read), so the resulting client is the client the call started from. -/
def OpenAIAPI.querySt (api : OpenAIAPI) (transport : HttpRequest → HttpResponse)
    (context question : String) : OpenAIAPI × List HttpRequest × JsOutcome :=
  (api, OpenAIAPI.query api transport context question)

/-
  The second plugin variant (the markdown-rendering one, `src/unnamed/
  part_000`) carries its own copy of the `OpenAIAPI` class. Its `query`
  method is transcribed below under the `MDVariant` prefix, from that file,
  so that the two transcriptions can be compared. The runtime semantics
  (`Js`, property access, stringify, the transport) are the language, not
  the program, and are shared.
-/

/-- The request body built by the second variant's `query` (part_000
lines 64-80). -/
def MDVariant.buildRequestBody (api : OpenAIAPI) (context question : String) : Js :=
  Js.obj [
    ("model", Js.str api.model),
    ("messages", Js.arr [
      Js.obj [("role", Js.str "system"), ("content", Js.str api.initialPrompt)],
      Js.obj [("role", Js.str "system"), ("content", Js.str ("context: " ++ context))],
      Js.obj [("role", Js.str "user"), ("content", Js.str question)]])]

/-- The `fetch` argument of the second variant's `query` (part_000
lines 58-81). -/
def MDVariant.buildHttpRequest (api : OpenAIAPI) (context question : String) : HttpRequest :=
  { url := "https://api.openai.com/v1/chat/completions",
    method := "POST",
    headers := [
      ("Content-Type", "application/json"),
      ("Authorization", "Bearer " ++ api.apiKey)],
    body := Js.stringify (MDVariant.buildRequestBody api context question) }

/-- The response handling of the second variant's `query` (part_000
lines 83-94). -/
def MDVariant.handleResponse (response : HttpResponse) : JsOutcome :=
  if response.ok then
    match response.jsonBody with
    | none => .parseFault "SyntaxError: Unexpected token in JSON"
    | some data =>
      match extractAnswer data with
      | .error m => .typeFault m
      | .ok content => .ret content
  else
    match response.jsonBody with
    | none => .thrown ("HTTP error! status: " ++ toString response.status)
    | some errorData =>
      match extractProviderMessage errorData with
      | .error m => .typeFault m
      | .ok v => .thrown (errorMessageOf v)

/-- The second variant's `query` (part_000 lines 57-95). -/
def MDVariant.query (api : OpenAIAPI) (transport : HttpRequest → HttpResponse)
    (context question : String) : List HttpRequest × JsOutcome :=
  let req := MDVariant.buildHttpRequest api context question
  ([req], MDVariant.handleResponse (transport req))

/-- The outcome of a call is the handling of the transport's answer to the
built request. -/
theorem query_snd (api : OpenAIAPI) (transport : HttpRequest → HttpResponse)
    (context question : String) :
    (OpenAIAPI.query api transport context question).snd
      = handleResponse (transport (buildHttpRequest api context question)) := rfl

/-- On a success-status response with a parsed body, `query` runs the
answer-extraction chain on that body. -/
theorem handleResponse_ok (r : HttpResponse) (data : Js)
    (hok : r.ok = true) (hbody : r.jsonBody = some data) :
    handleResponse r = match extractAnswer data with
      | .error m => .typeFault m
      | .ok content => .ret content := by
  unfold handleResponse
  rw [hok, hbody]
  rfl

/-- On a failure-status response with an unparseable body, `query` throws
the generic message carrying the status code. -/
theorem handleResponse_fail_none (r : HttpResponse)
    (hok : r.ok = false) (hbody : r.jsonBody = none) :
    handleResponse r = .thrown ("HTTP error! status: " ++ toString r.status) := by
  unfold handleResponse
  rw [hok, hbody]
  rfl

/-- On a failure-status response with a parsed body, `query` runs the
`errorData.error.message` chain and throws the resulting message. -/
theorem handleResponse_fail_some (r : HttpResponse) (errorData : Js)
    (hok : r.ok = false) (hbody : r.jsonBody = some errorData) :
    handleResponse r = match extractProviderMessage errorData with
      | .error m => .typeFault m
      | .ok v => .thrown (errorMessageOf v) := by
  unfold handleResponse
  rw [hok, hbody]
  rfl


/-- C2: for every client configuration and every context and question
(empty strings included, passed through verbatim), the request body built
by `query` has its model field equal to the configured model and exactly
the three messages (system, initialPrompt), (system, "context: " + context),
(user, question), in that order. -/
theorem query_builds_three_messages (api : OpenAIAPI) (context question : String) :
    (buildRequestBody api context question).getProp "model" = .ok (.str api.model) ∧
    (buildRequestBody api context question).getProp "messages" = .ok (.arr [
      Js.obj [("role", Js.str "system"), ("content", Js.str api.initialPrompt)],
      Js.obj [("role", Js.str "system"), ("content", Js.str ("context: " ++ context))],
      Js.obj [("role", Js.str "user"), ("content", Js.str question)]]) :=
  ⟨rfl, rfl⟩

/-- C7: every call issues exactly one request: a POST to the fixed
chat-completion endpoint, with the JSON content type and bearer
authorization headers, whose body is the JSON serialization of the built
request object. -/
theorem query_issues_single_post (api : OpenAIAPI) (transport : HttpRequest → HttpResponse)
    (context question : String) :
    (OpenAIAPI.query api transport context question).fst =
      [{ url := "https://api.openai.com/v1/chat/completions",
         method := "POST",
         headers := [
           ("Content-Type", "application/json"),
           ("Authorization", "Bearer " ++ api.apiKey)],
         body := Js.stringify (buildRequestBody api context question) }] := rfl

/-- C3: against a transport answering any success status with the body
given in the spec, the call resolves with the string content of the first
choice, here the string 42. -/
theorem query_returns_first_choice_content (api : OpenAIAPI) (context question : String)
    (status : Nat) (h1 : 200 ≤ status) (h2 : status ≤ 299) :
    (OpenAIAPI.query api
      (fun _ => ⟨status, some (Js.obj [("choices",
        Js.arr [Js.obj [("message", Js.obj [("content", Js.str "42")])]])])⟩)
      context question).snd = .ret (.str "42") := by
  have hok : HttpResponse.ok ⟨status, some (Js.obj [("choices",
      Js.arr [Js.obj [("message", Js.obj [("content", Js.str "42")])]])])⟩ = true := by
    simp [HttpResponse.ok]
    omega
  rw [query_snd, handleResponse_ok _ _ hok rfl]
  rfl

/-- Witness for C3 at status 200 and a concrete configuration. -/
theorem query_returns_first_choice_content_witness :
    200 ≤ 200 ∧ 200 ≤ 299 ∧
    (OpenAIAPI.query ⟨"key", "gpt-4o-mini", "prompt"⟩
      (fun _ => ⟨200, some (Js.obj [("choices",
        Js.arr [Js.obj [("message", Js.obj [("content", Js.str "42")])]])])⟩)
      "some context" "some question").snd = .ret (.str "42") :=
  ⟨by decide, by decide,
    query_returns_first_choice_content ⟨"key", "gpt-4o-mini", "prompt"⟩
      "some context" "some question" 200 (by decide) (by decide)⟩

/-- C4: for every failure-status response whose parsed body carries an
error object with a string message field, the call rejects with exactly
the provider-supplied message text. -/
theorem query_provider_error_message (api : OpenAIAPI) (context question : String)
    (resp : HttpResponse) (j e : Js) (m : String)
    (hok : resp.ok = false) (hbody : resp.jsonBody = some j)
    (herr : j.getProp "error" = .ok e) (hmsg : e.getProp "message" = .ok (.str m)) :
    (OpenAIAPI.query api (fun _ => resp) context question).snd = .thrown m := by
  rw [query_snd, handleResponse_fail_some _ j hok hbody]
  unfold extractProviderMessage
  rw [herr]
  simp [hmsg, errorMessageOf, jsToString]

/-- Witness for C4 at the concrete invalid_api_key payload with status 401. -/
theorem query_provider_error_message_witness :
    HttpResponse.ok ⟨401, some (Js.obj [("error", Js.obj [("message", Js.str "invalid_api_key")])])⟩ = false ∧
    (OpenAIAPI.query ⟨"key", "gpt-4o-mini", "prompt"⟩
      (fun _ => ⟨401, some (Js.obj [("error", Js.obj [("message", Js.str "invalid_api_key")])])⟩)
      "some context" "some question").snd = .thrown "invalid_api_key" :=
  ⟨by decide,
    query_provider_error_message ⟨"key", "gpt-4o-mini", "prompt"⟩
      "some context" "some question"
      ⟨401, some (Js.obj [("error", Js.obj [("message", Js.str "invalid_api_key")])])⟩
      (Js.obj [("error", Js.obj [("message", Js.str "invalid_api_key")])])
      (Js.obj [("message", Js.str "invalid_api_key")])
      "invalid_api_key" (by decide) rfl rfl rfl⟩

/-- C5: for every failure-status response whose body does not parse as
JSON, the call rejects with the generic message, which embeds the decimal
rendering of the raw HTTP status code. -/
theorem query_opaque_error_embeds_status (api : OpenAIAPI) (context question : String)
    (status : Nat) (hfail : HttpResponse.ok ⟨status, none⟩ = false) :
    (OpenAIAPI.query api (fun _ => ⟨status, none⟩) context question).snd
      = .thrown ("HTTP error! status: " ++ toString status) ∧
    ∃ pre suf, "HTTP error! status: " ++ toString status = pre ++ toString status ++ suf := by
  refine ⟨?_, "HTTP error! status: ", "", by simp⟩
  rw [query_snd, handleResponse_fail_none _ hfail rfl]

/-- Witness for C5 at status 500 with an unparseable body. -/
theorem query_opaque_error_embeds_status_witness :
    HttpResponse.ok ⟨500, none⟩ = false ∧
    ((OpenAIAPI.query ⟨"key", "gpt-4o-mini", "prompt"⟩ (fun _ => ⟨500, none⟩)
        "some context" "some question").snd
      = .thrown ("HTTP error! status: " ++ toString 500) ∧
    ∃ pre suf, "HTTP error! status: " ++ toString 500 = pre ++ toString 500 ++ suf) :=
  ⟨by decide,
    query_opaque_error_embeds_status ⟨"key", "gpt-4o-mini", "prompt"⟩
      "some context" "some question" 500 (by decide)⟩

/-- C6: two successive calls with the same context and question against the
same deterministic transport yield the same request trace and the same
outcome, the second call starting from the client state the first call
left behind. -/
theorem query_idempotent (api : OpenAIAPI) (transport : HttpRequest → HttpResponse)
    (context question : String) :
    (OpenAIAPI.querySt api transport context question).2 =
      (OpenAIAPI.querySt (OpenAIAPI.querySt api transport context question).1
        transport context question).2 := rfl

/-- C8: the client state after a call is the client state before it, for
every transport (successful or failing responses alike): none of the three
configuration fields is mutated. -/
theorem query_preserves_configuration (api : OpenAIAPI) (transport : HttpRequest → HttpResponse)
    (context question : String) :
    (OpenAIAPI.querySt api transport context question).1 = api := rfl

/-- C9: the two plugin variants' transcribed `query` pipelines agree on
every client, transport, context and question, in both the issued request
and the outcome. -/
theorem query_variants_agree (api : OpenAIAPI) (transport : HttpRequest → HttpResponse)
    (context question : String) :
    OpenAIAPI.query api transport context question
      = MDVariant.query api transport context question := rfl

/-- C10: for every failure-status response whose parsed body is an object
with no error field, reading `errorData.error.message` faults: the outcome
is the TypeError of reading a property of undefined, a fixed message
carrying neither the provider text nor the status code, and in particular
the outcome is not one of the two thrown provider errors. -/
theorem query_missing_error_object_faults (api : OpenAIAPI) (context question : String)
    (resp : HttpResponse) (fields : List (String × Js))
    (hok : resp.ok = false) (hbody : resp.jsonBody = some (.obj fields))
    (hnoerr : lookupField fields "error" = none) :
    (OpenAIAPI.query api (fun _ => resp) context question).snd
      = .typeFault (undefReadMsg "message") ∧
    ∀ m, (OpenAIAPI.query api (fun _ => resp) context question).snd ≠ .thrown m := by
  have h1 : (OpenAIAPI.query api (fun _ => resp) context question).snd
      = .typeFault (undefReadMsg "message") := by
    rw [query_snd, handleResponse_fail_some _ _ hok hbody]
    unfold extractProviderMessage
    have herr : (Js.obj fields).getProp "error" = .ok .undefined := by
      simp [Js.getProp, hnoerr]
    rw [herr]
    simp [Js.getProp]
  refine ⟨h1, fun m h => ?_⟩
  rw [h1] at h
  exact JsOutcome.noConfusion h

/-- Witness for C10 at status 503 with the body from the claim. -/
theorem query_missing_error_object_faults_witness :
    HttpResponse.ok ⟨503, some (Js.obj [("status", Js.str "down")])⟩ = false ∧
    ((OpenAIAPI.query ⟨"key", "gpt-4o-mini", "prompt"⟩
        (fun _ => ⟨503, some (Js.obj [("status", Js.str "down")])⟩)
        "some context" "some question").snd = .typeFault (undefReadMsg "message") ∧
     ∀ m, (OpenAIAPI.query ⟨"key", "gpt-4o-mini", "prompt"⟩
        (fun _ => ⟨503, some (Js.obj [("status", Js.str "down")])⟩)
        "some context" "some question").snd ≠ .thrown m) :=
  ⟨by decide,
    query_missing_error_object_faults ⟨"key", "gpt-4o-mini", "prompt"⟩
      "some context" "some question"
      ⟨503, some (Js.obj [("status", Js.str "down")])⟩
      [("status", Js.str "down")] (by decide) rfl rfl⟩

/-- C1 counterexample: a success-status response whose body lacks only the
leaf content field. The access chain `data.choices[0].message.content`
reads `content` off an object that lacks it, which yields `undefined`
without any fault, so `query` resolves successfully with `undefined`
instead of failing: the claim that every missing-shape success response
makes `query` fail is false at this input. -/
theorem query_missing_content_resolves :
    (OpenAIAPI.query ⟨"key", "gpt-4o-mini", "prompt"⟩
      (fun _ => ⟨200, some (Js.obj [("choices", Js.arr [Js.obj [("message", Js.obj [])]])])⟩)
      "some context" "some question").snd = .ret .undefined ∧
    JsOutcome.isFailure (OpenAIAPI.query ⟨"key", "gpt-4o-mini", "prompt"⟩
      (fun _ => ⟨200, some (Js.obj [("choices", Js.arr [Js.obj [("message", Js.obj [])]])])⟩)
      "some context" "some question").snd = false :=
  ⟨rfl, rfl⟩

/-- C1 amended: for every success-status response whose parsed body makes
the answer-extraction chain hit a property access on undefined or null
(missing choices, empty choices array, missing message — every
missing-shape case except a missing leaf content field), `query` fails
with the resulting property-access TypeError, surfaced to the caller as
the rejection of that call. -/
theorem query_shape_fault_surfaced (api : OpenAIAPI) (context question : String)
    (resp : HttpResponse) (data : Js) (m : String)
    (hok : resp.ok = true) (hbody : resp.jsonBody = some data)
    (hshape : extractAnswer data = .error m) :
    (OpenAIAPI.query api (fun _ => resp) context question).snd = .typeFault m := by
  rw [query_snd, handleResponse_ok _ _ hok hbody, hshape]

/-- Witness for the amended C1: a success response whose body is missing
the choices field faults at the index access on undefined. -/
theorem query_shape_fault_surfaced_witness :
    HttpResponse.ok ⟨200, some (Js.obj [])⟩ = true ∧
    extractAnswer (Js.obj []) = .error (undefReadMsg "0") ∧
    (OpenAIAPI.query ⟨"key", "gpt-4o-mini", "prompt"⟩ (fun _ => ⟨200, some (Js.obj [])⟩)
      "some context" "some question").snd = .typeFault (undefReadMsg "0") :=
  ⟨by decide, rfl,
    query_shape_fault_surfaced ⟨"key", "gpt-4o-mini", "prompt"⟩
      "some context" "some question" ⟨200, some (Js.obj [])⟩ (Js.obj [])
      (undefReadMsg "0") (by decide) rfl rfl⟩
